import Mathlib

/-!
Verification development for the safety-bot event pipeline.

Shallow embedding of the event acquisition / normalization / deduplication /
delivery pipeline. Sources embedded:
  - src/services/eventNormalize.ts  (UnifiedEvent, normalizeSpeedingInterval,
    mergeAndDedupeEvents)
  - src/index.ts                    (keyword lists, isRelevantEvent,
    isRelevantUnifiedEvent, sendSafetyAlertWithVideo,
    checkAndNotifySafetyEvents per-event loop bodies)
  - src/services/samsaraSpeeding.ts (expandWindow, window-expansion search,
    sliding window bounds, chunked fetch accumulation)
  - src/repository.ts               (isEventSent / isEventProcessed ledgers,
    modelled as id-lists)

Conventions: JS strings are Lean `String`; `undefined`/`null` become
`Option`; JS timestamps (`Date.getTime()`) are `Int` milliseconds; ISO
date parsing (`new Date(s).getTime()`) is an explicit parameter
`parse : String → Int` where it matters; I/O effects (Telegram sends,
video download, media lookup, DB rows) become explicit oracle records and
action traces.
-/

/-! ### JS string primitives used by the pipeline -/

/-- Character-list prefix test: does the first list lead the second?
Models the leading-position comparison inside JS `String.includes`. -/
def leadMatch : List Char → List Char → Bool
  | [], _ => true
  | _ :: _, [] => false
  | c :: cs, d :: ds => c == d && leadMatch cs ds

/-- Does `needle` occur as a contiguous run inside the second list? -/
def subMatch (needle : List Char) : List Char → Bool
  | [] => leadMatch needle []
  | d :: ds => leadMatch needle (d :: ds) || subMatch needle ds

/-- JS `hay.includes(needle)`. -/
def strIncludes (hay needle : String) : Bool :=
  subMatch needle.data hay.data

/-- JS `s.toLowerCase()` (ASCII, which covers every string the pipeline
compares). -/
def strLower (s : String) : String :=
  ⟨s.data.map Char.toLower⟩

/-- JS `s.toUpperCase()` (ASCII). -/
def strUpper (s : String) : String :=
  ⟨s.data.map Char.toUpper⟩

/-- Characters matched by the JS regex class `[\s_]` on the pipeline's
ASCII inputs. -/
def isSpaceOrUnderscore (c : Char) : Bool :=
  c == ' ' || c == '\t' || c == '\n' || c == '\r' || c == '\x0b' ||
    c == '\x0c' || c == '_'

/-- JS `s.replace(/[\s_]+/g, '')`: the "compact" form used by the
relevance filters. -/
def compactForm (s : String) : String :=
  ⟨s.data.filter (fun c => !isSpaceOrUnderscore c)⟩

/-- JS truthiness on an optional string: `undefined`, `null` and `""` are
falsy. -/
def truthy : Option String → Option String
  | some s => if s = "" then none else some s
  | none => none

/-- JS chained `a || b || c || ...` over optional strings, left to right. -/
def firstTruthy : List (Option String) → Option String
  | [] => none
  | o :: rest =>
    match truthy o with
    | some s => some s
    | none => firstTruthy rest

/-- JS `a || d` for an optional string with a string default. -/
def jsOrDefault (o : Option String) (d : String) : String :=
  match truthy o with
  | some s => s
  | none => d

/-! ### Data model (src/services/eventNormalize.ts, samsaraSpeeding.ts) -/

/-- The `source` discriminator of `UnifiedEvent` (`'safety' | 'speeding'`). -/
inductive EventSource where
  | safety
  | speeding
deriving DecidableEq

/-- `UnifiedEvent` from src/services/eventNormalize.ts. The open
`details` map is source-specific extra payload never read by any of the
functions verified here, so it is not carried. -/
structure UnifiedEvent where
  source : EventSource
  id : String
  type : String
  occurredAt : String
  endedAt : Option String := none
  severity : Option String := none
  assetId : Option String := none
  vehicleName : Option String := none
  driverId : Option String := none
  videoUrl : Option String := none
deriving DecidableEq

/-- `SpeedingInterval` from src/services/samsaraSpeeding.ts. Speeds are
rationals (the TS numbers hold one-decimal mph values). The `severity`
field models the index-signature access `interval.severity` made by
`normalizeSpeedingInterval` (the fetcher itself only sets
`severityLevel`, so at runtime `severity` is `undefined`). -/
structure SpeedingInterval where
  assetId : String
  startTime : String
  endTime : String
  severityLevel : Option String := none
  maxSpeedMph : Option ℚ := none
  speedLimitMph : Option ℚ := none
  driverId : Option String := none
  severity : Option String := none
deriving DecidableEq

/-- `normalizeSpeedingInterval` from src/services/eventNormalize.ts
(lines 73-103): synthesizes the stable id
`speeding:<assetId>:<startTime>:<endTime>`, constant type
`severe_speeding`, copies the interval bounds, upper-cases the (absent
in practice) severity with default `SEVERE`, and never attaches video. -/
def normalizeSpeedingInterval (interval : SpeedingInterval) : UnifiedEvent :=
  { source := .speeding
    id := "speeding:" ++ interval.assetId ++ ":" ++ interval.startTime ++
      ":" ++ interval.endTime
    type := "severe_speeding"
    occurredAt := interval.startTime
    endedAt := some interval.endTime
    severity := some (jsOrDefault (interval.severity.map strUpper) "SEVERE")
    assetId := some interval.assetId
    driverId := interval.driverId
    videoUrl := none }

/-- Claim C2: `normalizeSpeedingInterval` produces the colon-joined
`speeding:` id, constant type `severe_speeding`, `occurredAt`/`endedAt`
copied from the interval bounds, and a null `videoUrl`; the id depends
only on `(assetId, startTime, endTime)`, so re-normalizing the same
upstream record (from any overlapping fetch window) yields the same id;
and the spec's concrete V1 interval normalizes to the stated id. -/
theorem claim_C2_normalize_speeding :
    (∀ interval : SpeedingInterval,
      (normalizeSpeedingInterval interval).id =
        "speeding:" ++ interval.assetId ++ ":" ++ interval.startTime ++
          ":" ++ interval.endTime ∧
      (normalizeSpeedingInterval interval).type = "severe_speeding" ∧
      (normalizeSpeedingInterval interval).occurredAt = interval.startTime ∧
      (normalizeSpeedingInterval interval).endedAt = some interval.endTime ∧
      (normalizeSpeedingInterval interval).videoUrl = none) ∧
    (∀ i₁ i₂ : SpeedingInterval,
      i₁.assetId = i₂.assetId → i₁.startTime = i₂.startTime →
      i₁.endTime = i₂.endTime →
      (normalizeSpeedingInterval i₁).id = (normalizeSpeedingInterval i₂).id) ∧
    (normalizeSpeedingInterval
      { assetId := "V1"
        startTime := "2025-01-01T10:00:00Z"
        endTime := "2025-01-01T10:01:21Z"
        maxSpeedMph := some (801 / 10 : ℚ)
        speedLimitMph := some (553 / 10 : ℚ) }).id =
      "speeding:V1:2025-01-01T10:00:00Z:2025-01-01T10:01:21Z" := by
  refine ⟨fun interval => ⟨rfl, rfl, rfl, rfl, rfl⟩, ?_, by decide⟩
  intro i₁ i₂ ha hs he
  simp [normalizeSpeedingInterval, ha, hs, he]

/-- Claim C2 witness: the V1 interval instantiates the id-determinism
conjunct, its hypotheses discharged concretely. -/
theorem claim_C2_witness :
    (normalizeSpeedingInterval
      { assetId := "V1", startTime := "2025-01-01T10:00:00Z",
        endTime := "2025-01-01T10:01:21Z" }).id =
    (normalizeSpeedingInterval
      { assetId := "V1", startTime := "2025-01-01T10:00:00Z",
        endTime := "2025-01-01T10:01:21Z",
        severity := some "severe" }).id :=
  claim_C2_normalize_speeding.2.1
    { assetId := "V1", startTime := "2025-01-01T10:00:00Z",
      endTime := "2025-01-01T10:01:21Z" }
    { assetId := "V1", startTime := "2025-01-01T10:00:00Z",
      endTime := "2025-01-01T10:01:21Z", severity := some "severe" }
    rfl rfl rfl

/-! ### Merger/Deduplicator (src/services/eventNormalize.ts lines 127-149) -/

/-- The dedup loop of `mergeAndDedupeEvents`: walk the input keeping the
first event for each not-yet-seen id (`seen` is the JS `Set` state). -/
def dedupeAux (seen : List String) : List UnifiedEvent → List UnifiedEvent
  | [] => []
  | e :: rest =>
    if e.id ∈ seen then dedupeAux seen rest
    else e :: dedupeAux (e.id :: seen) rest

/-- The sort step of `mergeAndDedupeEvents`: ascending by the parsed
`occurredAt` timestamp (`parse` stands for `new Date(s).getTime()`). -/
def sortByOccurredAt (parse : String → Int) (l : List UnifiedEvent) :
    List UnifiedEvent :=
  List.insertionSort (fun a b => parse a.occurredAt ≤ parse b.occurredAt) l

/-- `mergeAndDedupeEvents` from src/services/eventNormalize.ts: dedupe by
stable id (first occurrence wins), then sort ascending by `occurredAt`. -/
def mergeAndDedupeEvents (parse : String → Int) (events : List UnifiedEvent) :
    List UnifiedEvent :=
  sortByOccurredAt parse (dedupeAux [] events)

theorem dedupeAux_mem (seen : List String) (l : List UnifiedEvent) :
    ∀ e ∈ dedupeAux seen l,
      e.id ∉ seen ∧ l.find? (fun x => x.id == e.id) = some e := by
  induction l generalizing seen with
  | nil => intro e he; simp [dedupeAux] at he
  | cons x rest ih =>
    intro e he
    by_cases hx : x.id ∈ seen
    · simp only [dedupeAux, if_pos hx] at he
      obtain ⟨hns, hfind⟩ := ih seen e he
      have hne : (x.id == e.id) = false := by
        simp only [beq_eq_false_iff_ne, ne_eq]
        intro h; exact hns (h ▸ hx)
      refine ⟨hns, ?_⟩
      simp [List.find?, hne, hfind]
    · simp only [dedupeAux, if_neg hx] at he
      rcases List.mem_cons.mp he with he | he
      · subst he
        exact ⟨hx, by simp [List.find?]⟩
      · obtain ⟨hns, hfind⟩ := ih (x.id :: seen) e he
        have hne : (x.id == e.id) = false := by
          simp only [beq_eq_false_iff_ne, ne_eq]
          intro h
          exact hns (by simp [h])
        refine ⟨fun hs => hns (by simp [hs]), ?_⟩
        simp [List.find?, hne, hfind]

theorem dedupeAux_id_mem (seen : List String) (l : List UnifiedEvent)
    (i : String) :
    i ∈ (dedupeAux seen l).map (fun e => e.id) ↔
      i ∉ seen ∧ i ∈ l.map (fun e => e.id) := by
  induction l generalizing seen with
  | nil => simp [dedupeAux]
  | cons x rest ih =>
    by_cases hx : x.id ∈ seen
    · simp only [dedupeAux, if_pos hx, ih, List.map_cons, List.mem_cons]
      constructor
      · rintro ⟨hns, hm⟩
        exact ⟨hns, Or.inr hm⟩
      · rintro ⟨hns, hm | hm⟩
        · exact absurd (hm ▸ hx) hns
        · exact ⟨hns, hm⟩
    · simp only [dedupeAux, if_neg hx, List.map_cons, List.mem_cons, ih]
      constructor
      · rintro (h | ⟨hns, hm⟩)
        · exact ⟨h ▸ hx, Or.inl h⟩
        · refine ⟨fun hs => hns (by simp [hs]), Or.inr hm⟩
      · rintro ⟨hns, hm | hm⟩
        · exact Or.inl hm
        · by_cases hi : i = x.id
          · exact Or.inl hi
          · exact Or.inr ⟨by simp [hi, hns], hm⟩

theorem dedupeAux_nodup (seen : List String) (l : List UnifiedEvent) :
    ((dedupeAux seen l).map (fun e => e.id)).Nodup := by
  induction l generalizing seen with
  | nil => simp [dedupeAux]
  | cons x rest ih =>
    by_cases hx : x.id ∈ seen
    · simpa [dedupeAux, if_pos hx] using ih seen
    · simp only [dedupeAux, if_neg hx, List.map_cons, List.nodup_cons]
      refine ⟨fun hm => ?_, ih (x.id :: seen)⟩
      have := (dedupeAux_id_mem (x.id :: seen) rest x.id).mp hm
      simp at this

theorem sortByOccurredAt_perm (parse : String → Int) (l : List UnifiedEvent) :
    List.Perm (sortByOccurredAt parse l) l :=
  List.perm_insertionSort _ l

/-- Claim C1: `mergeAndDedupeEvents` emits pairwise-distinct ids, exactly
the ids present in the input, each surviving entry is the first entry of
the input carrying its id, and the output is sorted ascending by the
parsed `occurredAt` instant. -/
theorem claim_C1_merge_dedupe (parse : String → Int)
    (events : List UnifiedEvent) :
    ((mergeAndDedupeEvents parse events).map (fun e => e.id)).Nodup ∧
    (∀ i : String,
      i ∈ (mergeAndDedupeEvents parse events).map (fun e => e.id) ↔
        i ∈ events.map (fun e => e.id)) ∧
    (∀ e ∈ mergeAndDedupeEvents parse events,
      events.find? (fun x => x.id == e.id) = some e) ∧
    List.Sorted (fun a b => parse a.occurredAt ≤ parse b.occurredAt)
      (mergeAndDedupeEvents parse events) := by
  have hperm : List.Perm (mergeAndDedupeEvents parse events)
      (dedupeAux [] events) :=
    sortByOccurredAt_perm parse (dedupeAux [] events)
  refine ⟨?_, ?_, ?_, ?_⟩
  · exact (List.Perm.nodup_iff (hperm.map _)).mpr (dedupeAux_nodup [] events)
  · intro i
    rw [(hperm.map (fun e => e.id)).mem_iff, dedupeAux_id_mem]
    simp
  · intro e he
    exact (dedupeAux_mem [] events e (hperm.mem_iff.mp he)).2
  · letI : IsTotal UnifiedEvent
        (fun a b => parse a.occurredAt ≤ parse b.occurredAt) :=
      ⟨fun a b => Int.le_total _ _⟩
    letI : IsTrans UnifiedEvent
        (fun a b => parse a.occurredAt ≤ parse b.occurredAt) :=
      ⟨fun _ _ _ hab hbc => le_trans hab hbc⟩
    exact List.sorted_insertionSort _ _

/-- Concrete batch used by the C1 witness: the id `dup` occurs twice. -/
def c1WitnessEvent : UnifiedEvent :=
  { source := .speeding, id := "dup", type := "severe_speeding",
    occurredAt := "aa" }

def c1WitnessBatch : List UnifiedEvent :=
  [c1WitnessEvent,
   { source := .safety, id := "b", type := "harsh_brake", occurredAt := "a" },
   { source := .speeding, id := "dup", type := "severe_speeding",
     occurredAt := "aaa" }]

/-- Claim C1 witness: on a concrete batch with a duplicated id the merged
output keeps the first-encountered entry, located by the theorem's
first-occurrence conjunct at a concrete member. -/
theorem claim_C1_witness :
    c1WitnessEvent ∈
      mergeAndDedupeEvents (fun s => (s.length : Int)) c1WitnessBatch ∧
    c1WitnessBatch.find? (fun x => x.id == c1WitnessEvent.id) =
      some c1WitnessEvent :=
  ⟨by decide,
   (claim_C1_merge_dedupe (fun s => (s.length : Int))
      c1WitnessBatch).2.2.1 c1WitnessEvent (by decide)⟩

/-! ### Relevance filter (src/index.ts lines 381-467) -/

/-- `SPEEDING_KEYWORDS` from src/index.ts. -/
def SPEEDING_KEYWORDS : List String :=
  ["speed", "speeding", "max speed", "severe speed", "severe speeding",
   "speeding (manual)"]

/-- `OTHER_SERIOUS_KEYWORDS` from src/index.ts. -/
def OTHER_SERIOUS_KEYWORDS : List String :=
  ["harsh brake", "harsh braking", "yield", "red light", "rolling stop"]

/-- `ALLOWED_KEYWORDS` from src/index.ts. -/
def ALLOWED_KEYWORDS : List String :=
  SPEEDING_KEYWORDS ++ OTHER_SERIOUS_KEYWORDS

/-- `BLOCKED_KEYWORDS` from src/index.ts. -/
def BLOCKED_KEYWORDS : List String :=
  ["following distance", "followingdistance"]

/-- The keyword scan shared by both relevance filters: blocked keywords
veto, then allowed keywords admit, each matched on the literal lowered
text and on the compact (whitespace/underscore-stripped) form. `text` is
expected already lower-cased, as in the source. -/
def keywordScan (text : String) : Bool :=
  let compact := compactForm text
  if BLOCKED_KEYWORDS.any (fun kw =>
      strIncludes text kw || strIncludes compact (compactForm kw)) then
    false
  else
    ALLOWED_KEYWORDS.any (fun kw =>
      strIncludes text (strLower kw) ||
        strIncludes compact (compactForm (strLower kw)))

/-- Body of `isRelevantUnifiedEvent` (src/index.ts lines 436-467), which
reads only the event's `source` and `type`. -/
def relevantCore (src : EventSource) (ty : String) : Bool :=
  match src with
  | .speeding => ty == "severe_speeding"
  | .safety => keywordScan (strLower ty)

/-- `isRelevantUnifiedEvent` from src/index.ts: severe speeding intervals
are always relevant; safety events pass the keyword allow/deny scan over
the lower-cased normalized type; anything else is dropped. -/
def isRelevantUnifiedEvent (event : UnifiedEvent) : Bool :=
  relevantCore event.source event.type

/-- Claim C3: `isRelevantUnifiedEvent` is a pure function of `source` and
the normalized type text, and on the four spec-listed cases evaluates to
always-relevant for interval-sourced `severe_speeding`, blocked for
safety `following_distance`, relevant for safety `harsh_braking`, and
relevant for safety `harshbrake` via the compact-form match. -/
theorem claim_C3_relevance_determinism :
    (∀ e₁ e₂ : UnifiedEvent, e₁.source = e₂.source → e₁.type = e₂.type →
      isRelevantUnifiedEvent e₁ = isRelevantUnifiedEvent e₂) ∧
    isRelevantUnifiedEvent
      { source := .speeding, id := "i1", type := "severe_speeding",
        occurredAt := "t" } = true ∧
    isRelevantUnifiedEvent
      { source := .safety, id := "i2", type := "following_distance",
        occurredAt := "t" } = false ∧
    isRelevantUnifiedEvent
      { source := .safety, id := "i3", type := "harsh_braking",
        occurredAt := "t" } = true ∧
    isRelevantUnifiedEvent
      { source := .safety, id := "i4", type := "harshbrake",
        occurredAt := "t" } = true := by
  refine ⟨?_, by decide, by decide, by decide, by decide⟩
  intro e₁ e₂ hs ht
  simp [isRelevantUnifiedEvent, hs, ht]

/-- Claim C3 witness: purity instantiated on two distinct events sharing
source and type (differing ids and timestamps), hypotheses discharged
concretely. -/
theorem claim_C3_witness :
    isRelevantUnifiedEvent
      { source := .safety, id := "w1", type := "harsh_braking",
        occurredAt := "t1" } =
    isRelevantUnifiedEvent
      { source := .safety, id := "w2", type := "harsh_braking",
        occurredAt := "t2" } :=
  claim_C3_relevance_determinism.1
    { source := .safety, id := "w1", type := "harsh_braking",
      occurredAt := "t1" }
    { source := .safety, id := "w2", type := "harsh_braking",
      occurredAt := "t2" }
    rfl rfl

/-! ### Raw safety events and their production filter
(src/index.ts lines 403-430) -/

/-- One entry of `behaviorLabels` on a Samsara safety event. -/
structure BehaviorLabel where
  name : Option String := none
  label : Option String := none
deriving DecidableEq

/-- The fields of Samsara's `SafetyEvent` that the verified functions
read: identity, the three time candidates, the three video-url
candidates, the behavior labels, and the type/category fallbacks. -/
structure SafetyEvent where
  id : String
  time : Option String := none
  occurredAt : Option String := none
  startTime : Option String := none
  downloadForwardVideoUrl : Option String := none
  downloadInwardVideoUrl : Option String := none
  downloadVideoUrl : Option String := none
  behaviorLabels : Option (List BehaviorLabel) := none
  type : Option String := none
  eventType : Option String := none
  behaviorType : Option String := none
deriving DecidableEq

/-- `isRelevantEvent` from src/index.ts (lines 403-430): missing or empty
`behaviorLabels` short-circuits to `false`; otherwise the labels'
`label`/`name` texts are joined, lower-cased and run through the keyword
allow/deny scan. -/
def isRelevantEvent (ev : SafetyEvent) : Bool :=
  let labels := ev.behaviorLabels.getD []
  if labels.isEmpty then false
  else
    keywordScan (strLower (String.intercalate " "
      (labels.map (fun l => (l.label.getD "") ++ " " ++ (l.name.getD "")))))

/-- Claim C10: a safety event with missing or empty `behaviorLabels` is
never judged relevant by `isRelevantEvent`, and the predicate ignores the
`type`, `eventType` and `behaviorType` fields entirely. -/
theorem claim_C10_empty_labels_irrelevant :
    (∀ ev : SafetyEvent,
      ev.behaviorLabels = none ∨ ev.behaviorLabels = some [] →
      isRelevantEvent ev = false) ∧
    (∀ (ev : SafetyEvent) (ty ety bty : Option String),
      isRelevantEvent
        { ev with type := ty, eventType := ety, behaviorType := bty } =
        isRelevantEvent ev) := by
  constructor
  · intro ev h
    rcases h with h | h <;> simp [isRelevantEvent, h]
  · intro ev ty ety bty
    cases ev
    rfl

/-- Claim C10 witness: a concrete event with empty labels but a
harsh-brake `type` field is rejected, via the theorem at that input. -/
theorem claim_C10_witness :
    isRelevantEvent
      { id := "e10", behaviorLabels := some [],
        type := some "Harsh Brake" } = false :=
  claim_C10_empty_labels_irrelevant.1
    { id := "e10", behaviorLabels := some [], type := some "Harsh Brake" }
    (Or.inr rfl)

/-! ### Window resolver (src/services/samsaraSpeeding.ts) -/

/-- Minutes to milliseconds, the conversion the sliding-window and
expansion code perform inline as `minutes * 60 * 1000`. -/
def minutesToMs (m : Int) : Int :=
  m * 60 * 1000

/-- The `SPEEDING_WINDOW_HOURS` / `SPEEDING_BUFFER_MINUTES` environment
configuration consumed by `fetchSpeedingIntervalsWithSlidingWindow`
(env defaults 12 and 10). -/
structure SpeedingWindowConfig where
  windowHours : Int
  bufferMinutes : Int

/-- The sliding-window bounds computed by
`fetchSpeedingIntervalsWithSlidingWindow` (samsaraSpeeding.ts lines
402-446), in epoch milliseconds:
`windowStart = now - (windowHours * 60 + bufferMinutes) * 60 * 1000`,
`windowEnd = now + 1 * 60 * 1000`. -/
def slidingWindowBounds (nowMs : Int) (cfg : SpeedingWindowConfig) :
    Int × Int :=
  (nowMs - (cfg.windowHours * 60 + cfg.bufferMinutes) * 60 * 1000,
   nowMs + 1 * 60 * 1000)

/-- Claim C6: for every clock reading and every configuration, the
scheduled-pass window is exactly `now` minus
`(windowHours * 60 + bufferMinutes)` minutes up to `now` plus one minute;
equivalently the window reaches that many minutes back and one minute
forward. -/
theorem claim_C6_sliding_window (nowMs : Int) (cfg : SpeedingWindowConfig) :
    (slidingWindowBounds nowMs cfg).1 =
      nowMs - minutesToMs (cfg.windowHours * 60 + cfg.bufferMinutes) ∧
    (slidingWindowBounds nowMs cfg).2 = nowMs + minutesToMs 1 ∧
    nowMs - (slidingWindowBounds nowMs cfg).1 =
      minutesToMs (cfg.windowHours * 60 + cfg.bufferMinutes) ∧
    (slidingWindowBounds nowMs cfg).2 - nowMs = minutesToMs 1 := by
  refine ⟨rfl, by simp [slidingWindowBounds, minutesToMs], ?_, ?_⟩ <;>
    simp [slidingWindowBounds, minutesToMs]

/-- `expandWindow` from samsaraSpeeding.ts (lines 55-71), on epoch
milliseconds: widen symmetrically by `minutes`, swapping the bounds if
they would cross. -/
def expandWindowMs (w : Int × Int) (minutes : Int) : Int × Int :=
  let s := w.1 - minutes * 60 * 1000
  let e := w.2 + minutes * 60 * 1000
  if s ≤ e then (s, e) else (e, s)

/-- The strategy ladder of `fetchSpeedingIntervalsInternal`
(`±120m`, `±360m`, `±720m`). -/
def expansionStrategyMinutes : List Int :=
  [120, 360, 720]

/-- The per-chunk strategy loop of `fetchSpeedingIntervalsInternal`
(samsaraSpeeding.ts lines 284-339): for each delta in order, query the
base window expanded by that delta; stop at the first query that returns
a non-empty interval list; an error or an empty page moves on to the
next delta; exhausting the ladder yields no intervals. Returns the list
of windows actually queried together with the intervals used. -/
def tryStrategiesGo (fetch : Int × Int → Except String (List SpeedingInterval))
    (base : Int × Int) : List Int → List (Int × Int) × List SpeedingInterval
  | [] => ([], [])
  | m :: ms =>
    let w := expandWindowMs base m
    match fetch w with
    | .ok l =>
      if l.isEmpty then
        let r := tryStrategiesGo fetch base ms
        (w :: r.1, r.2)
      else ([w], l)
    | .error _ =>
      let r := tryStrategiesGo fetch base ms
      (w :: r.1, r.2)

/-- The window-expansion search over the full strategy ladder. -/
def tryExpansionStrategies
    (fetch : Int × Int → Except String (List SpeedingInterval))
    (base : Int × Int) : List (Int × Int) × List SpeedingInterval :=
  tryStrategiesGo fetch base expansionStrategyMinutes

/-- Modelled from the amended claim's words (refinement reference): the
search queries the ±120-minute expansion of the base window first — the
raw base window is never queried — then the ±360-minute and ±720-minute
expansions, stopping at the first query yielding any intervals, and
returns no intervals after exhausting all three. -/
def expansionSearchSpec
    (fetch : Int × Int → Except String (List SpeedingInterval))
    (base : Int × Int) : List (Int × Int) × List SpeedingInterval :=
  let q1 := expandWindowMs base 120
  let q2 := expandWindowMs base 360
  let q3 := expandWindowMs base 720
  let res : Int × Int → List SpeedingInterval := fun w =>
    match fetch w with
    | .ok l => l
    | .error _ => []
  if res q1 ≠ [] then ([q1], res q1)
  else if res q2 ≠ [] then ([q1, q2], res q2)
  else if res q3 ≠ [] then ([q1, q2, q3], res q3)
  else ([q1, q2, q3], [])

/-- Interval payload for the C7 counterexample oracle. -/
def c7Interval : SpeedingInterval :=
  { assetId := "A", startTime := "s", endTime := "e" }

/-- Oracle returning data for every window — in particular the base
window would have returned data had it been queried. -/
def c7Fetch : Int × Int → Except String (List SpeedingInterval) :=
  fun _ => .ok [c7Interval]

/-- A one-hour base window in epoch milliseconds. -/
def c7Base : Int × Int :=
  (0, 3600000)

/-- Claim C7 counterexample: with data available in every window, the
search's only query is the ±2-hour expansion `(-7200000, 10800000)`; the
caller-supplied one-hour base window itself is never queried, so the
claimed "start from the base window, widen only when it returns zero
records" behavior is false on the code. -/
theorem claim_C7_counterexample :
    (tryExpansionStrategies c7Fetch c7Base).1 =
      [((-7200000 : Int), (10800000 : Int))] ∧
    c7Base ∉ (tryExpansionStrategies c7Fetch c7Base).1 := by
  constructor <;> decide

/-- Claim C7 (amended): the window-expansion search applies the delta
ladder ±2h, ±6h, ±12h directly to the caller-supplied base window —
never querying the raw base window itself — stopping at the first
expansion that yields any intervals and returning empty after exhausting
the ladder; so a 1-hour base search always queries the ±2-hour window
first, before ±6-hour. -/
theorem claim_C7_expansion_amended
    (fetch : Int × Int → Except String (List SpeedingInterval))
    (base : Int × Int) :
    tryExpansionStrategies fetch base = expansionSearchSpec fetch base := by
  cases h1 : fetch (expandWindowMs base 120) <;>
    cases h2 : fetch (expandWindowMs base 360) <;>
      cases h3 : fetch (expandWindowMs base 720) <;>
        simp [tryExpansionStrategies, expansionSearchSpec,
          expansionStrategyMinutes, tryStrategiesGo, h1, h2, h3,
          List.isEmpty_iff] <;>
        split_ifs <;> simp_all

/-! ### Chunked sliding-window fetch (samsaraSpeeding.ts lines 448-501) -/

/-- The local severity gate of the sliding-window fetch: keep an interval
when both speeds are present and `maxSpeedMph - speedLimitMph` reaches
the configured over-limit threshold. -/
def severeByThreshold (threshold : ℚ) (i : SpeedingInterval) : Bool :=
  match i.maxSpeedMph, i.speedLimitMph with
  | some actual, some limit => decide (threshold ≤ actual - limit)
  | _, _ => false

/-- The chunk loop of `fetchSpeedingIntervalsWithSlidingWindow`
(samsaraSpeeding.ts lines 467-501): each chunk's fetch outcome is either
a list of intervals or an error; an erroring chunk is caught and skipped
while every remaining chunk is still processed. Accumulates
(all intervals, threshold-severe intervals) in chunk order. -/
def collectSlidingChunks (threshold : ℚ) :
    List (Except String (List SpeedingInterval)) →
      List SpeedingInterval × List SpeedingInterval
  | [] => ([], [])
  | .error _ :: rest => collectSlidingChunks threshold rest
  | .ok l :: rest =>
    let r := collectSlidingChunks threshold rest
    (l ++ r.1, l.filter (severeByThreshold threshold) ++ r.2)

/-- Claim C9: a failing chunk anywhere in the batch leaves the fetch
result exactly what the successful chunks alone produce — the failure
aborts neither the preceding nor the remaining chunks, and partial
results are returned. -/
theorem claim_C9_chunk_isolation (threshold : ℚ)
    (pre post : List (Except String (List SpeedingInterval))) (e : String) :
    collectSlidingChunks threshold (pre ++ .error e :: post) =
      collectSlidingChunks threshold (pre ++ post) := by
  induction pre with
  | nil => simp [collectSlidingChunks]
  | cons x rest ih =>
    cases x with
    | error e' => simpa [collectSlidingChunks] using ih
    | ok l => simp [collectSlidingChunks, ih]

/-! ### Delivery orchestrator (src/index.ts lines 699-978 and the
per-event loop of checkAndNotifySafetyEvents, lines 1005-1253) -/

/-- Observable calls of one delivery pass: the Samsara media lookup, the
three Telegram transport calls, the temp-file video download, and the two
persistent writes (`logSafetyEvent`/`logUnifiedEvent` audit-log row and
`markEventSent` dedup-ledger row). -/
inductive BotAction where
  | mediaLookup
  | sendVideoUrl (url : String)
  | downloadVideo (url : String)
  | sendVideoStream
  | sendText
  | logEvent (eventId : String)
  | markSent (eventId : String)
deriving DecidableEq

/-- Message-transport calls (Telegram sends). -/
def BotAction.isTransport : BotAction → Bool
  | .sendVideoUrl _ => true
  | .sendVideoStream => true
  | .sendText => true
  | _ => false

/-- The download-to-temp-file step of the fallback tier. -/
def BotAction.isDownload : BotAction → Bool
  | .downloadVideo _ => true
  | _ => false

/-- A Telegram error as classified by `sendSafetyAlertWithVideo`:
`error_code` and the derived message text. -/
structure TgError where
  code : Option Int
  text : String
deriving DecidableEq

/-- Outcome oracle for the effects of one `sendSafetyAlertWithVideo`
run: the media-lookup result (`none` for lookup failure or no video),
the direct-URL send outcome (`none` = ok), whether `downloadVideoToTemp`
yields a file, and the stream-send / text-send outcomes (`none` = ok,
`some msg` = the thrown error's message). -/
structure SendEnv where
  mediaLookup : Option String
  urlSend : Option TgError
  download : Bool
  streamSend : Option String
  textSend : Option String
deriving DecidableEq

/-- The `{ success, videoUrl?, error? }` result of
`sendSafetyAlertWithVideo`. -/
structure SendResult where
  success : Bool
  videoUrl : Option String := none
  error : Option String := none
deriving DecidableEq

/-- The fetchable-content classification of a direct-URL send failure
(src/index.ts lines 869-875): HTTP 400 or 403, or message text containing
`bad request`, `file`, or `fetch`. -/
def shouldFallback (e : TgError) : Bool :=
  e.code == some 400 || e.code == some 403 ||
    strIncludes (strLower e.text) "bad request" ||
    strIncludes (strLower e.text) "file" ||
    strIncludes (strLower e.text) "fetch"

/-- Video-URL resolution of `sendSafetyAlertWithVideo` (src/index.ts
lines 769-798): inline URLs with forward > inward > generic priority,
then — only when none is truthy — the ±5-minute Samsara media lookup,
whose failure degrades to no video. Returns the actions performed and
the resolved URL. -/
def resolveVideoUrl (env : SendEnv) (ev : SafetyEvent) :
    List BotAction × Option String :=
  match firstTruthy [ev.downloadForwardVideoUrl, ev.downloadInwardVideoUrl,
      ev.downloadVideoUrl] with
  | some u => ([], some u)
  | none => ([BotAction.mediaLookup], truthy env.mediaLookup)

/-- The fallback tier of `sendSafetyAlertWithVideo` (src/index.ts lines
903-977), entered only for fetchable-content-classified URL failures:
download to a temp file (a failed download degrades to text), else
re-upload as a file stream, and a failed stream send degrades to text. -/
def fallbackPhase (env : SendEnv) (pre : List BotAction) (u : String) :
    List BotAction × SendResult :=
  if !env.download then
    match env.textSend with
    | none =>
      (pre ++ [.sendVideoUrl u, .downloadVideo u, .sendText],
       { success := true, videoUrl := some u, error := some "Download failed" })
    | some m =>
      (pre ++ [.sendVideoUrl u, .downloadVideo u, .sendText],
       { success := false, error := some m })
  else
    match env.streamSend with
    | none =>
      (pre ++ [.sendVideoUrl u, .downloadVideo u, .sendVideoStream],
       { success := true, videoUrl := some u })
    | some se =>
      match env.textSend with
      | none =>
        (pre ++ [.sendVideoUrl u, .downloadVideo u, .sendVideoStream,
          .sendText],
         { success := true, videoUrl := some u, error := some se })
      | some m =>
        (pre ++ [.sendVideoUrl u, .downloadVideo u, .sendVideoStream,
          .sendText],
         { success := false, error := some m })

/-- The send state machine of `sendSafetyAlertWithVideo` after video
resolution (src/index.ts lines 814-977): dry-run short-circuit; without a
video URL either the `NO_VIDEO_YET` refusal (when text is not allowed) or
a text send; with a URL the direct-URL send, then — per the error
classification — the download/stream fallback tier or a direct text
fallback. -/
def sendCore (env : SendEnv) (pre : List BotAction) (videoUrl : Option String)
    (dryRun allowTextIfNoVideo : Bool) : List BotAction × SendResult :=
  if dryRun then (pre, { success := true, videoUrl := videoUrl })
  else
    match videoUrl with
    | none =>
      if !allowTextIfNoVideo then
        (pre, { success := false, error := some "NO_VIDEO_YET" })
      else
        match env.textSend with
        | none => (pre ++ [.sendText], { success := true })
        | some m => (pre ++ [.sendText], { success := false, error := some m })
    | some u =>
      match env.urlSend with
      | none =>
        (pre ++ [.sendVideoUrl u], { success := true, videoUrl := some u })
      | some e =>
        if shouldFallback e then fallbackPhase env pre u
        else
          match env.textSend with
          | none =>
            (pre ++ [.sendVideoUrl u, .sendText],
             { success := true, videoUrl := some u, error := some e.text })
          | some m =>
            (pre ++ [.sendVideoUrl u, .sendText],
             { success := false, error := some m })

/-- `sendSafetyAlertWithVideo` from src/index.ts: resolve the video URL,
then run the send state machine. -/
def sendSafetyAlertWithVideo (env : SendEnv) (ev : SafetyEvent)
    (dryRun allowTextIfNoVideo : Bool) : List BotAction × SendResult :=
  sendCore env (resolveVideoUrl env ev).1 (resolveVideoUrl env ev).2
    dryRun allowTextIfNoVideo

theorem resolveVideoUrl_fst (env : SendEnv) (ev : SafetyEvent) :
    (resolveVideoUrl env ev).1 = [] ∨
      (resolveVideoUrl env ev).1 = [BotAction.mediaLookup] := by
  unfold resolveVideoUrl
  cases firstTruthy [ev.downloadForwardVideoUrl, ev.downloadInwardVideoUrl,
      ev.downloadVideoUrl] <;> simp

/-- Message-transport and download calls of a trace, in order. -/
def keyCalls (tr : List BotAction) : List BotAction :=
  tr.filter (fun a => a.isTransport || a.isDownload)

theorem keyCalls_resolve_nil (env : SendEnv) (ev : SafetyEvent) :
    keyCalls (resolveVideoUrl env ev).1 = [] := by
  obtain h | h := resolveVideoUrl_fst env ev <;>
    simp [keyCalls, h, BotAction.isTransport, BotAction.isDownload]

/-- Claim C5: when the direct-URL video send fails, the fetchable-content
classification decides the next step — a classified error (400/403 or
`bad request`/`file`/`fetch` text) makes the download step the very next
transport-or-download call after the URL attempt, before any text
fallback; an unclassified error (e.g. 401) never triggers a download and
the trace is exactly the URL attempt followed directly by the text-only
send. -/
theorem claim_C5_fallback_ordering (env : SendEnv) (ev : SafetyEvent)
    (allowText : Bool) (u : String) (e : TgError)
    (hu : (resolveVideoUrl env ev).2 = some u)
    (he : env.urlSend = some e) :
    (shouldFallback e = true →
      ∃ rest, keyCalls (sendSafetyAlertWithVideo env ev false allowText).1 =
        BotAction.sendVideoUrl u :: BotAction.downloadVideo u :: rest) ∧
    (shouldFallback e = false →
      (∀ v, BotAction.downloadVideo v ∉
        (sendSafetyAlertWithVideo env ev false allowText).1) ∧
      keyCalls (sendSafetyAlertWithVideo env ev false allowText).1 =
        [BotAction.sendVideoUrl u, BotAction.sendText]) := by
  have hsend : ∀ pre, (resolveVideoUrl env ev).1 = pre →
      sendSafetyAlertWithVideo env ev false allowText =
        sendCore env pre (some u) false allowText := by
    intro pre hp
    rw [sendSafetyAlertWithVideo, hu, hp]
  obtain hpre | hpre := resolveVideoUrl_fst env ev <;>
    rw [hsend _ hpre] <;>
    constructor <;>
    intro hf
  · simp only [sendCore, he, hf, if_true, fallbackPhase]
    cases hd : env.download <;> cases hss : env.streamSend <;>
      cases hts : env.textSend <;>
        simp [keyCalls, BotAction.isTransport, BotAction.isDownload]
  · cases hts : env.textSend <;>
      simp [sendCore, he, hf, hts, keyCalls, BotAction.isTransport,
        BotAction.isDownload]
  · simp only [sendCore, he, hf, if_true, fallbackPhase]
    cases hd : env.download <;> cases hss : env.streamSend <;>
      cases hts : env.textSend <;>
        simp [keyCalls, BotAction.isTransport, BotAction.isDownload]
  · cases hts : env.textSend <;>
      simp [sendCore, he, hf, hts, keyCalls, BotAction.isTransport,
        BotAction.isDownload]

/-- The 400-classified Telegram error used by the C5 witness. -/
def c5Error : TgError :=
  { code := some 400, text := "Bad Request: failed to get HTTP URL content" }

/-- Effect oracle for the C5 witness: direct-URL send fails with the
400-classified error, download and stream succeed. -/
def c5Env : SendEnv :=
  { mediaLookup := none, urlSend := some c5Error, download := true,
    streamSend := none, textSend := none }

/-- Concrete event with an inline forward video URL for the C5 witness. -/
def c5Event : SafetyEvent :=
  { id := "e5", downloadForwardVideoUrl := some "https://cdn/v.mp4" }

/-- Claim C5 witness: a 400-classified URL failure on a concrete event
with an inline forward video URL triggers the download fallback first,
via the theorem with all hypotheses discharged concretely. -/
theorem claim_C5_witness :
    ∃ rest, keyCalls (sendSafetyAlertWithVideo c5Env c5Event false true).1 =
      BotAction.sendVideoUrl "https://cdn/v.mp4" ::
        BotAction.downloadVideo "https://cdn/v.mp4" :: rest :=
  (claim_C5_fallback_ordering c5Env c5Event true "https://cdn/v.mp4" c5Error
    (by decide) rfl).1 (by decide)

/-! ### Per-event loop bodies of checkAndNotifySafetyEvents
(src/index.ts lines 1043-1253) -/

/-- The media grace period `SAFETY_MEDIA_READY_DELAY_MINUTES` (3 min), in
milliseconds. -/
def graceMs : Int :=
  minutesToMs 3

/-- The media giveup threshold `SAFETY_MEDIA_MAX_WAIT_MINUTES` (10 min),
in milliseconds. -/
def giveupMs : Int :=
  minutesToMs 10

/-- Per-tick environment for one safety event of the scheduled pass: the
chat resolved for the vehicle (`findChatByVehicleName`), the tick's
clock, and the send-effect oracle. The processed-log (`safetyEventLog`
rows keyed by `samsaraEventId`, read by `isEventProcessed`) is passed
separately as the list of logged ids. -/
structure SafetyLoopEnv where
  chatId : Option Int
  nowMs : Int
  send : SendEnv

/-- The send-and-record tail of the safety loop body (src/index.ts lines
1116-1162): run `sendSafetyAlertWithVideo`; on success with a video or
with text allowed, write the log row; on the `NO_VIDEO_YET` refusal with
text disallowed, write nothing and leave the event for the next tick;
any other failure still writes a log row. -/
def safetySendPhase (env : SafetyLoopEnv) (ev : SafetyEvent)
    (log : List String) (allowText : Bool) : List BotAction × List String :=
  let tr := (sendSafetyAlertWithVideo env.send ev false allowText).1
  let r := (sendSafetyAlertWithVideo env.send ev false allowText).2
  if r.success && ((truthy r.videoUrl).isSome || allowText) then
    (tr ++ [.logEvent ev.id], ev.id :: log)
  else if !r.success && r.error == some "NO_VIDEO_YET" && !allowText then
    (tr, log)
  else
    (tr ++ [.logEvent ev.id], ev.id :: log)

/-- One iteration of the safety-event loop of
`checkAndNotifySafetyEvents` (src/index.ts lines 1043-1162): skip
silently when the id is already in the processed log; log-only when no
chat maps to the vehicle; defer (no calls, no writes) when the event is
younger than the grace period; otherwise send with text allowed only
past the giveup threshold (or when no timestamp is available). `parse`
is ISO-to-epoch-ms date parsing; ages compare in milliseconds,
equivalent to the source's fractional-minute comparisons. -/
def processSafetyEvent (parse : String → Int) (env : SafetyLoopEnv)
    (ev : SafetyEvent) (log : List String) : List BotAction × List String :=
  if ev.id ∈ log then ([], log)
  else
    match env.chatId with
    | none => ([.logEvent ev.id], ev.id :: log)
    | some _ =>
      match (firstTruthy [ev.time, ev.occurredAt, ev.startTime]).map
          (fun s => env.nowMs - parse s) with
      | some age =>
        if age < graceMs then ([], log)
        else safetySendPhase env ev log (decide (giveupMs ≤ age))
      | none => safetySendPhase env ev log true

/-- Per-event environment for one speeding interval of the scheduled
pass: the chat resolved for the vehicle and whether the plain-text send
succeeds. The `sentEvent` dedup ledger (read by `isEventSent`, written by
`markEventSent`) and the audit log are passed as id-lists. -/
structure SpeedLoopEnv where
  chatId : Option Int
  sendOk : Bool

/-- One iteration of the speeding-interval loop of
`checkAndNotifySafetyEvents` (src/index.ts lines 1176-1253): skip
silently when `isEventSent` hits the ledger; log-only when no chat maps
to the vehicle; otherwise send the plain-text message, and only on
success mark the ledger; the log row is written either way. -/
def processSpeedingEvent (env : SpeedLoopEnv) (event : UnifiedEvent)
    (ledger log : List String) :
    List BotAction × List String × List String :=
  if event.id ∈ ledger then ([], ledger, log)
  else
    match env.chatId with
    | none => ([.logEvent event.id], ledger, event.id :: log)
    | some _ =>
      if env.sendOk then
        ([.sendText, .markSent event.id, .logEvent event.id],
         event.id :: ledger, event.id :: log)
      else
        ([.sendText, .logEvent event.id], ledger, event.id :: log)

/-- Claim C4: an event whose stable id is already in the persistent
ledger produces an empty action trace — zero transport calls, zero
downloads, zero writes — and leaves every store unchanged: the safety
loop body under an `isEventProcessed` hit, and the speeding loop body
under an `isEventSent` hit. -/
theorem claim_C4_delivery_once (parse : String → Int)
    (senv : SafetyLoopEnv) (ev : SafetyEvent) (slog : List String)
    (penv : SpeedLoopEnv) (event : UnifiedEvent)
    (ledger plog : List String)
    (hs : ev.id ∈ slog) (hp : event.id ∈ ledger) :
    processSafetyEvent parse senv ev slog = ([], slog) ∧
    processSpeedingEvent penv event ledger plog = ([], ledger, plog) := by
  constructor
  · simp [processSafetyEvent, hs]
  · simp [processSpeedingEvent, hp]

/-- Claim C4 witness: concrete already-recorded ids on both loop bodies,
hypotheses discharged concretely. -/
theorem claim_C4_witness :
    processSafetyEvent (fun _ => 0)
      { chatId := some 7, nowMs := 0,
        send := { mediaLookup := none, urlSend := none, download := false,
                  streamSend := none, textSend := none } }
      { id := "seen-safety" } ["seen-safety"] = ([], ["seen-safety"]) ∧
    processSpeedingEvent { chatId := some 7, sendOk := true }
      { source := .speeding, id := "seen-speeding",
        type := "severe_speeding", occurredAt := "t" }
      ["seen-speeding"] [] = ([], ["seen-speeding"], []) :=
  claim_C4_delivery_once (fun _ => 0)
    { chatId := some 7, nowMs := 0,
      send := { mediaLookup := none, urlSend := none, download := false,
                streamSend := none, textSend := none } }
    { id := "seen-safety" } ["seen-safety"]
    { chatId := some 7, sendOk := true }
    { source := .speeding, id := "seen-speeding",
      type := "severe_speeding", occurredAt := "t" }
    ["seen-speeding"] []
    (by decide) (by decide)

theorem truthy_none : truthy none = none :=
  rfl

/-- Claim C8: for a deliverable safety event (not yet processed, chat
resolved, timestamped), (a) an age below the 3-minute media grace period
defers: the loop body performs no call of any kind and writes nothing;
(b) an age at or past the 10-minute giveup threshold with no inline
video, a media lookup that finds nothing, and a successful text send
yields exactly the media lookup, the text-only transport call, and then
the log write recording the event. -/
theorem claim_C8_grace_deferral (parse : String → Int)
    (env : SafetyLoopEnv) (ev : SafetyEvent) (log : List String)
    (c : Int) (s : String)
    (hid : ev.id ∉ log)
    (hchat : env.chatId = some c)
    (htime : firstTruthy [ev.time, ev.occurredAt, ev.startTime] = some s) :
    (env.nowMs - parse s < graceMs →
      processSafetyEvent parse env ev log = ([], log)) ∧
    (giveupMs ≤ env.nowMs - parse s →
      firstTruthy [ev.downloadForwardVideoUrl, ev.downloadInwardVideoUrl,
        ev.downloadVideoUrl] = none →
      truthy env.send.mediaLookup = none →
      env.send.textSend = none →
      processSafetyEvent parse env ev log =
        ([BotAction.mediaLookup, BotAction.sendText,
          BotAction.logEvent ev.id], ev.id :: log)) := by
  constructor
  · intro hage
    simp [processSafetyEvent, hid, hchat, htime, hage]
  · intro hage hv hm hts
    have hnot : ¬ (env.nowMs - parse s < graceMs) := by
      simp only [graceMs, giveupMs, minutesToMs] at hage ⊢
      omega
    have hdec : decide (giveupMs ≤ env.nowMs - parse s) = true :=
      decide_eq_true hage
    simp [processSafetyEvent, hid, hchat, htime, hnot, hdec,
      safetySendPhase, sendSafetyAlertWithVideo, resolveVideoUrl, hv, hm,
      sendCore, hts, truthy_none]

/-- Send-effect oracle for the C8 witness: no media anywhere, text send
succeeds. -/
def c8Send : SendEnv :=
  { mediaLookup := none, urlSend := none, download := false,
    streamSend := none, textSend := none }

/-- Concrete timestamped safety event without video for the C8 witness. -/
def c8Event : SafetyEvent :=
  { id := "e8", time := some "t" }

/-- Claim C8 witness: with `parse` pinning the event time at epoch 0, the
same event is deferred with nothing written at age 1 minute and sent as
text then logged at age 11 minutes, both via the theorem with hypotheses
discharged concretely. -/
theorem claim_C8_witness :
    processSafetyEvent (fun _ => 0)
      { chatId := some 7, nowMs := 60000, send := c8Send } c8Event [] =
      ([], []) ∧
    processSafetyEvent (fun _ => 0)
      { chatId := some 7, nowMs := 660000, send := c8Send } c8Event [] =
      ([BotAction.mediaLookup, BotAction.sendText,
        BotAction.logEvent "e8"], ["e8"]) :=
  ⟨(claim_C8_grace_deferral (fun _ => 0)
      { chatId := some 7, nowMs := 60000, send := c8Send } c8Event [] 7 "t"
      (by decide) rfl (by decide)).1 (by decide),
   (claim_C8_grace_deferral (fun _ => 0)
      { chatId := some 7, nowMs := 660000, send := c8Send } c8Event [] 7 "t"
      (by decide) rfl (by decide)).2 (by decide) (by decide) rfl rfl⟩
